import Mathlib

/-!
Shallow embedding of the cost-simulator core (`src/core`) of
DChenet/sec_cost_simulator2, and verification of the specification's claims
about it.

Python floats (`speed`, `phi`, energy parameters, `distance`) are modelled as
exact rationals (ℚ); `math.log10` forces the transmission energy formula into
ℝ.  Fallible Python arithmetic (division by zero, `log10` of a non-positive
argument) is modelled by `Except`-returning variants of the cost functions,
carrying the exception the interpreter would raise.
-/

/-- The Python-level failures the core's arithmetic can raise:
`ZeroDivisionError` from `/` with a zero denominator, `ValueError` from
`math.log10` on a non-positive argument, and the `InvalidConfiguration`
error named by the specification's error taxonomy (never raised by the
source, as proved below). -/
inductive PyError where
  | zeroDivisionError
  | valueError
  | invalidConfiguration
deriving DecidableEq, Repr

/-- `core/nodes/node.py`, `Node.__init__`: stores `speed` and
`phi` (= `np.float128(phi)`, here an exact rational). -/
structure Node where
  speed : ℚ
  phi : ℚ
deriving DecidableEq, Repr

/-- `core/nodes/node.py` line 8-9, `Node.process`:
`int(round(np.ceil(np.float128(data) * self.phi)))`.  The ceiling of a
rational is already an integer and `round` is the identity on integers, so
the composite is `⌈data * phi⌉`. -/
def Node.process (n : Node) (data : ℤ) : ℤ :=
  ⌈(data : ℚ) * n.phi⌉

/-- `core/nodes/node.py` line 11-12, `Node.get_speed`: returns `self.speed`. -/
def Node.get_speed (n : Node) : ℚ :=
  n.speed

/-- `core/nodes/node.py` line 14-15, `Node.set_speed`: sets `self.speed`. -/
def Node.set_speed (n : Node) (speed : ℚ) : Node :=
  { n with speed := speed }

/-- `core/nodes/node.py` line 17-18, `Node.get_phi`: returns `self.phi`. -/
def Node.get_phi (n : Node) : ℚ :=
  n.phi

/-- `core/nodes/node.py` line 20-21, `Node.set_phi`: sets `self.phi`. -/
def Node.set_phi (n : Node) (phi : ℚ) : Node :=
  { n with phi := phi }

/-- `core/nodes/computing_node.py`, `ComputingNode.__init__(speed, phi)`:
just `super().__init__(speed, phi)`, so a computing node is a `Node`. -/
def ComputingNode (speed phi : ℚ) : Node :=
  ⟨speed, phi⟩

namespace ComputingNode

/-- `core/nodes/computing_node.py` line 8-9, `ComputingNode.time_cost`:
`data_in / self.speed` (value semantics; Python raises on `speed == 0`,
see `time_costE`). -/
def time_cost (n : Node) (data_in : ℚ) : ℚ :=
  data_in / n.speed

/-- `core/nodes/computing_node.py` line 11-12, `ComputingNode.energy_cost`:
`(energy_memory * data_in) + (energy_computing * (data_in / self.speed))`.
Note the source's parameter names and order: the coefficient of `data_in`
is the SECOND argument `energy_memory`; the coefficient of
`data_in / speed` is the THIRD argument `energy_computing`. -/
def energy_cost (n : Node) (data_in energy_memory energy_computing : ℚ) : ℚ :=
  (energy_memory * data_in) + (energy_computing * (data_in / n.speed))

/-- `ComputingNode.time_cost` with Python's failure behaviour: `/` raises
`ZeroDivisionError` exactly when `self.speed == 0`. -/
def time_costE (n : Node) (data_in : ℚ) : Except PyError ℚ :=
  if n.speed = 0 then .error .zeroDivisionError
  else .ok (time_cost n data_in)

/-- `ComputingNode.energy_cost` with Python's failure behaviour: `/` raises
`ZeroDivisionError` exactly when `self.speed == 0`. -/
def energy_costE (n : Node) (data_in energy_memory energy_computing : ℚ) :
    Except PyError ℚ :=
  if n.speed = 0 then .error .zeroDivisionError
  else .ok (energy_cost n data_in energy_memory energy_computing)

end ComputingNode

/-- `core/nodes/transmission_node.py`, `TransmissionNode.__init__(speed)`:
`super().__init__(speed, 1)` — only the speed is configurable. -/
structure TransmissionNode where
  speed : ℚ
deriving DecidableEq, Repr

namespace TransmissionNode

/-- The underlying `Node` built by `TransmissionNode.__init__`: `phi` is 1. -/
def toNode (t : TransmissionNode) : Node :=
  ⟨t.speed, 1⟩

/-- `TransmissionNode.process` is the inherited `Node.process` with `phi = 1`. -/
def process (t : TransmissionNode) (data : ℤ) : ℤ :=
  t.toNode.process data

/-- `core/nodes/transmission_node.py` line 10-11, `TransmissionNode.time_cost`:
`data_in / self.speed`. -/
def time_cost (t : TransmissionNode) (data_in : ℚ) : ℚ :=
  data_in / t.speed

/-- `core/nodes/transmission_node.py` line 13-14, `TransmissionNode.energy_cost`:
`log10(distance) * energy * (data_in / self.speed)`; `math.log10` is the
real base-10 logarithm, so this lives in ℝ. -/
noncomputable def energy_cost (t : TransmissionNode) (data_in energy distance : ℝ) : ℝ :=
  Real.logb 10 distance * energy * (data_in / (t.speed : ℝ))

/-- `TransmissionNode.time_cost` with Python's failure behaviour. -/
def time_costE (t : TransmissionNode) (data_in : ℚ) : Except PyError ℚ :=
  if t.speed = 0 then .error .zeroDivisionError
  else .ok (time_cost t data_in)

/-- `TransmissionNode.energy_cost` with Python's failure behaviour:
`math.log10(distance)` is evaluated first and raises `ValueError` when
`distance <= 0`; then the division raises `ZeroDivisionError` when
`self.speed == 0`. -/
noncomputable def energy_costE (t : TransmissionNode) (data_in energy distance : ℝ) :
    Except PyError ℝ :=
  if distance ≤ 0 then .error .valueError
  else if (t.speed : ℚ) = 0 then .error .zeroDivisionError
  else .ok (energy_cost t data_in energy distance)

end TransmissionNode

/-- Python `int(x)` applied to a float/rational: truncation toward zero. -/
def pyInt (q : ℚ) : ℤ :=
  if 0 ≤ q then ⌊q⌋ else ⌈q⌉

/-- `core/units/data_size.py`, `Data.__init__`: stores one `DataUnit`
(an `int` subclass) value. -/
structure Data where
  value : ℤ
deriving DecidableEq, Repr

namespace Data

/-- `core/units/data_size.py` line 11-12, `Data.data_in`: returns the stored
value unchanged. -/
def data_in (d : Data) : ℤ :=
  d.value

/-- `core/units/data_size.py` line 14-19, `Data.data_out`:
`new_value = self.value * int(phi)`; when `alter` is true the stored value
is replaced.  Returns the new value together with the (possibly mutated)
object. -/
def data_out (d : Data) (phi : ℚ) (alter : Bool) : ℤ × Data :=
  let new_value := d.value * pyInt phi
  (new_value, if alter then ⟨new_value⟩ else d)

end Data

namespace TransmissionEnergyCost

/-- `core/costs/transmission_energy_cost.py` line 9-10,
`TransmissionEnergyCost.calculate_cost`:
`distance * energy * float(data_in / int(speed))`.  Python `/` on two
integers is TRUE division (a float result), and `float(...)` is the identity
on that value; `int(speed)` truncates, and the division raises
`ZeroDivisionError` when it is zero. -/
def calculate_cost (data_in : ℤ) (speed distance energy : ℚ) : Except PyError ℚ :=
  if pyInt speed = 0 then .error .zeroDivisionError
  else .ok (distance * energy * ((data_in : ℚ) / (pyInt speed : ℚ)))

/-- The formula the specification's words give for
`TransmissionEnergyCost.calculate_cost`:
`distance * energy * floor(data_in / int(speed))` (integer, floored
division) — stated for comparison with the source's `calculate_cost`. -/
def calculate_cost_claimed (data_in : ℤ) (speed distance energy : ℚ) :
    Except PyError ℚ :=
  if pyInt speed = 0 then .error .zeroDivisionError
  else .ok (distance * energy * ((⌊(data_in : ℚ) / (pyInt speed : ℚ)⌋ : ℤ) : ℚ))

end TransmissionEnergyCost

/-- C1: `Node.process` computes the ceiling (not the truncation) of
`data * phi`; in particular `ComputingNode(30, 0.9).process(100) = 90`,
and on the non-exact input 99 the result `⌈89.1⌉ = 90` exceeds the
truncation 89, exhibiting the ceiling rule. -/
theorem claim_C1_process_ceiling :
    (∀ (s phi : ℚ) (d : ℤ), (Node.mk s phi).process d = ⌈(d : ℚ) * phi⌉) ∧
    (ComputingNode 30 (9/10)).process 100 = 90 ∧
    (ComputingNode 30 (9/10)).process 99 = 90 := by
  refine ⟨fun s phi d => rfl, ?_, ?_⟩ <;>
    · show ⌈((_ : ℤ) : ℚ) * ((9:ℚ)/10)⌉ = _
      rw [Int.ceil_eq_iff] <;> norm_num

/-- C8: with `scale_factor = 1` processing is the identity on integers, and
`TransmissionNode` is constructed with `phi = 1`, so its `process` never
changes the payload size. -/
theorem claim_C8_scale_factor_one_identity :
    (∀ (s : ℚ) (d : ℤ), (Node.mk s 1).process d = d) ∧
    (∀ (t : TransmissionNode), t.toNode.phi = 1) ∧
    (∀ (t : TransmissionNode) (d : ℤ), t.process d = d) := by
  have key : ∀ (s : ℚ) (d : ℤ), (Node.mk s 1).process d = d := by
    intro s d
    show ⌈(d : ℚ) * 1⌉ = d
    rw [mul_one, Int.ceil_intCast]
  exact ⟨key, fun t => rfl, fun t d => key t.speed d⟩

/-- C9: for positive throughput and non-negative payload, `time_cost` is
`data_in / throughput` for both node kinds. -/
theorem claim_C9_time_cost (t d : ℚ) (ht : 0 < t) (hd : 0 ≤ d) :
    (∀ phi : ℚ, ComputingNode.time_cost (ComputingNode t phi) d = d / t) ∧
    TransmissionNode.time_cost ⟨t⟩ d = d / t :=
  ⟨fun _ => rfl, rfl⟩

/-- Witness for C9 at `t = 30`, `d = 100`. -/
theorem claim_C9_time_cost_witness :
    ComputingNode.time_cost (ComputingNode 30 (9/10)) 100 = 100 / 30 :=
  (claim_C9_time_cost 30 100 (by norm_num) (by norm_num)).1 (9/10)

/-- C10: `set_phi` updates the scale factor and leaves the throughput
unchanged, and `set_speed` updates the throughput and leaves the scale
factor unchanged; `get_phi`/`get_speed` read the corresponding field. -/
theorem claim_C10_accessor_frame (n : Node) (phi s : ℚ) :
    (n.set_phi phi).get_phi = phi ∧
    (n.set_phi phi).get_speed = n.get_speed ∧
    (n.set_speed s).get_phi = n.get_phi ∧
    (n.set_speed s).get_speed = s :=
  ⟨rfl, rfl, rfl, rfl⟩

/-- C4: transmission energy cost is `log10(distance) * energy * (data_in /
throughput)`, and at throughput 10: `energy_cost(90, 5, 700) =
log10(700) * 5 * (90/10)` with `time_cost(90) = 9`. -/
theorem claim_C4_transmission_energy (s : ℚ) (d energy distance : ℝ)
    (hs : 0 < s) (hd : 0 ≤ d) (hdist : 0 < distance) :
    TransmissionNode.energy_cost ⟨s⟩ d energy distance =
      Real.logb 10 distance * energy * (d / (s : ℝ)) ∧
    TransmissionNode.energy_cost ⟨10⟩ 90 5 700 = Real.logb 10 700 * 5 * (90 / 10) ∧
    TransmissionNode.time_cost ⟨10⟩ 90 = 9 := by
  refine ⟨rfl, ?_, ?_⟩
  · show Real.logb 10 700 * 5 * ((90 : ℝ) / ((10 : ℚ) : ℝ)) = _
    norm_num
  · show (90 : ℚ) / 10 = 9
    norm_num

/-- Witness for C4 at `s = 10`, `d = 90`, `energy = 5`, `distance = 700`. -/
theorem claim_C4_transmission_energy_witness :
    TransmissionNode.energy_cost ⟨10⟩ 90 5 700 =
      Real.logb 10 700 * 5 * ((90 : ℝ) / ((10 : ℚ) : ℝ)) :=
  (claim_C4_transmission_energy 10 90 5 700 (by norm_num) (by norm_num)
    (by norm_num)).1

/-- C2 fails on the source: a `time_cost` call with negative throughput does
not raise `InvalidConfiguration`; it silently returns the computed value
`100 / (-10) = -10`. -/
theorem claim_C2_counterexample :
    ComputingNode.time_costE (ComputingNode (-10) 1) 100 = .ok (-10) ∧
    (Except.ok (-10) : Except PyError ℚ) ≠ .error .invalidConfiguration := by
  refine ⟨?_, by simp⟩
  rw [ComputingNode.time_costE, if_neg (by norm_num [ComputingNode])]
  rw [ComputingNode.time_cost]
  norm_num [ComputingNode]

/-- C2 amended: the source performs no validation.  No cost call ever raises
`InvalidConfiguration`; `throughput = 0` raises `ZeroDivisionError`,
`distance <= 0` raises `ValueError` from `log10`, and every other
configuration (negative throughput, negative payload, `0 < distance < 1`)
silently returns the computed value. -/
theorem claim_C2_amended :
    (∀ (n : Node) (d : ℚ),
      ComputingNode.time_costE n d ≠ .error .invalidConfiguration) ∧
    (∀ (n : Node) (d em ec : ℚ),
      ComputingNode.energy_costE n d em ec ≠ .error .invalidConfiguration) ∧
    (∀ (t : TransmissionNode) (d : ℚ),
      TransmissionNode.time_costE t d ≠ .error .invalidConfiguration) ∧
    (∀ (t : TransmissionNode) (d energy distance : ℝ),
      TransmissionNode.energy_costE t d energy distance ≠
        .error .invalidConfiguration) ∧
    (∀ (n : Node) (d : ℚ), n.speed = 0 →
      ComputingNode.time_costE n d = .error .zeroDivisionError) ∧
    (∀ (n : Node) (d : ℚ), n.speed ≠ 0 →
      ComputingNode.time_costE n d = .ok (d / n.speed)) ∧
    (∀ (t : TransmissionNode) (d energy distance : ℝ), distance ≤ 0 →
      TransmissionNode.energy_costE t d energy distance = .error .valueError) := by
  refine ⟨?_, ?_, ?_, ?_, ?_, ?_, ?_⟩
  · intro n d
    rw [ComputingNode.time_costE]
    split <;> simp
  · intro n d em ec
    rw [ComputingNode.energy_costE]
    split <;> simp
  · intro t d
    rw [TransmissionNode.time_costE]
    split <;> simp
  · intro t d energy distance
    rw [TransmissionNode.energy_costE]
    split
    · simp
    · split <;> simp
  · intro n d h
    rw [ComputingNode.time_costE, if_pos h]
  · intro n d h
    rw [ComputingNode.time_costE, if_neg h, ComputingNode.time_cost]
  · intro t d energy distance h
    rw [TransmissionNode.energy_costE, if_pos h]

/-- Witness for C2 (amended) at throughput 0: `ZeroDivisionError`. -/
theorem claim_C2_amended_witness :
    ComputingNode.time_costE (ComputingNode 0 1) 100 =
      .error .zeroDivisionError :=
  claim_C2_amended.2.2.2.2.1 (ComputingNode 0 1) 100 rfl

/-- C3 fails on the source: `ComputingNode.energy_cost(100, 5, 25)` at
throughput 30 computes `5*100 + 25*(100/30) = 1750/3 ≈ 583.33`, not the
claimed `25*100 + 5*(100/30) = 7550/3 ≈ 2516.67`: the source's parameter
order `(data_in, energy_memory, energy_computing)` puts the coefficient of
`data_in` FIRST, while the claim (and the repository's own
`src/tests/test_scenario.py`, which calls with keywords
`energy_uptime=5, energy_io=25` that the source's signature rejects with a
`TypeError`) puts the coefficient of `data_in / throughput` first. -/
theorem claim_C3_energy_cost_divergence :
    ComputingNode.energy_cost (ComputingNode 30 (9/10)) 100 5 25 = 1750 / 3 ∧
    (1750 : ℚ) / 3 ≠ 25 * 100 + 5 * (100 / 30) := by
  constructor
  · rw [ComputingNode.energy_cost]
    norm_num [ComputingNode]
  · norm_num

/-- C5 fails on the source: `Data.data_out` multiplies by the TRUNCATED
scale factor `int(phi)`, so `Data(100).data_out(0.9)` returns `100 * 0 = 0`
while `Node.process` with the same payload and scale factor returns
`⌈100 * 0.9⌉ = 90`. -/
theorem claim_C5_data_out_divergence :
    (Data.data_out ⟨100⟩ (9/10) true).1 = 0 ∧
    (Node.mk 30 (9/10)).process 100 = 90 ∧ (0 : ℤ) ≠ 90 := by
  refine ⟨?_, ?_, by decide⟩
  · show (100 : ℤ) * pyInt (9/10) = 0
    have h0 : pyInt (9/10) = 0 := by
      rw [pyInt, if_pos (by norm_num), Int.floor_eq_iff]
      norm_num
    rw [h0, mul_zero]
  · show ⌈((100 : ℤ) : ℚ) * ((9 : ℚ)/10)⌉ = 90
    rw [Int.ceil_eq_iff]
    norm_num

/-- C6 fails on the source: `TransmissionEnergyCost.calculate_cost(5, 2, 1, 1)`
evaluates `float(5 / int(2)) = 2.5` with Python TRUE division, returning
`.ok (5/2)`, while the claim's floored formula gives
`floor(5 / int(2)) = 2` — the two differ. -/
theorem claim_C6_counterexample :
    TransmissionEnergyCost.calculate_cost 5 2 1 1 = .ok (5/2) ∧
    TransmissionEnergyCost.calculate_cost_claimed 5 2 1 1 = .ok 2 ∧
    TransmissionEnergyCost.calculate_cost 5 2 1 1 ≠
      TransmissionEnergyCost.calculate_cost_claimed 5 2 1 1 := by
  have h2 : pyInt 2 = 2 := by
    rw [pyInt, if_pos (by norm_num), Int.floor_eq_iff]
    norm_num
  have hcode : TransmissionEnergyCost.calculate_cost 5 2 1 1 = .ok (5/2) := by
    rw [TransmissionEnergyCost.calculate_cost, if_neg (by rw [h2]; norm_num), h2]
    norm_num
  have hfl : ⌊((5 : ℤ) : ℚ) / ((2 : ℤ) : ℚ)⌋ = 2 := by
    rw [Int.floor_eq_iff]
    norm_num
  have hclaim : TransmissionEnergyCost.calculate_cost_claimed 5 2 1 1 = .ok 2 := by
    rw [TransmissionEnergyCost.calculate_cost_claimed,
      if_neg (by rw [h2]; norm_num), h2, hfl]
    norm_num
  refine ⟨hcode, hclaim, ?_⟩
  rw [hcode, hclaim]
  simp only [ne_eq, Except.ok.injEq]
  norm_num

/-- C6 amended: whenever `int(speed)` is non-zero,
`TransmissionEnergyCost.calculate_cost` returns
`distance * energy * (data_in / int(speed))` with TRUE (real) division of
`data_in` by the truncated speed — not the floor of that quotient. -/
theorem claim_C6_amended (data_in : ℤ) (speed distance energy : ℚ)
    (h : pyInt speed ≠ 0) :
    TransmissionEnergyCost.calculate_cost data_in speed distance energy =
      .ok (distance * energy * ((data_in : ℚ) / (pyInt speed : ℚ))) := by
  rw [TransmissionEnergyCost.calculate_cost, if_neg h]

/-- Witness for C6 (amended) at `(5, 2, 1, 1)`. -/
theorem claim_C6_amended_witness :
    TransmissionEnergyCost.calculate_cost 5 2 1 1 =
      .ok (1 * 1 * (((5 : ℤ) : ℚ) / (pyInt 2 : ℚ))) :=
  claim_C6_amended 5 2 1 1 (by decide)

/-- C7 fails on the source for `TransmissionNode`: with the positive
parameters `speed = 1`, `energy = 1`, `distance = 1/10`, the energy cost
DROPS from `0` (at `data_in = 0`) to `log10(1/10) = -1 < 0` (at
`data_in = 1`), because the `log10` factor is negative for distances
below 1. -/
theorem claim_C7_counterexample :
    (0 : ℚ) < 1 ∧ (0 : ℝ) < 1 ∧ (0 : ℝ) < 1/10 ∧ (0 : ℝ) ≤ 0 ∧ (0 : ℝ) ≤ 1 ∧
    ¬ TransmissionNode.energy_cost ⟨1⟩ 0 1 (1/10) ≤
        TransmissionNode.energy_cost ⟨1⟩ 1 1 (1/10) := by
  have h10 : Real.logb 10 ((1 : ℝ)/10) = -1 := by
    rw [one_div, Real.logb_inv, Real.logb_self_eq_one (by norm_num)]
  refine ⟨by norm_num, by norm_num, by norm_num, le_refl 0, by norm_num, ?_⟩
  rw [TransmissionNode.energy_cost, TransmissionNode.energy_cost, h10]
  norm_num

/-- C7 amended: energy cost is monotonically non-decreasing in `data_in` for
fixed positive parameters for `ComputingNode`, and for `TransmissionNode`
provided additionally `distance >= 1` (so that the `log10` factor is
non-negative). -/
theorem claim_C7_amended :
    (∀ (n : Node) (em ec d1 d2 : ℚ), 0 < n.speed → 0 < em → 0 < ec →
      0 ≤ d1 → d1 ≤ d2 →
      ComputingNode.energy_cost n d1 em ec ≤
        ComputingNode.energy_cost n d2 em ec) ∧
    (∀ (t : TransmissionNode) (energy distance d1 d2 : ℝ),
      0 < t.speed → 0 < energy → 1 ≤ distance → 0 ≤ d1 → d1 ≤ d2 →
      TransmissionNode.energy_cost t d1 energy distance ≤
        TransmissionNode.energy_cost t d2 energy distance) := by
  constructor
  · intro n em ec d1 d2 hs hem hec hd1 h12
    rw [ComputingNode.energy_cost, ComputingNode.energy_cost]
    gcongr
  · intro t energy distance d1 d2 hs henergy hdist hd1 h12
    have hl : 0 ≤ Real.logb 10 distance := Real.logb_nonneg (by norm_num) hdist
    have hsR : (0 : ℝ) < (t.speed : ℝ) := by exact_mod_cast hs
    rw [TransmissionNode.energy_cost, TransmissionNode.energy_cost]
    have hdiv : d1 / (t.speed : ℝ) ≤ d2 / (t.speed : ℝ) := by gcongr
    exact mul_le_mul_of_nonneg_left hdiv (mul_nonneg hl henergy.le)

/-- Witness for C7 (amended): both monotonicity statements at concrete
positive parameters. -/
theorem claim_C7_amended_witness :
    ComputingNode.energy_cost (ComputingNode 30 1) 50 5 25 ≤
      ComputingNode.energy_cost (ComputingNode 30 1) 100 5 25 ∧
    TransmissionNode.energy_cost ⟨10⟩ 50 5 700 ≤
      TransmissionNode.energy_cost ⟨10⟩ 100 5 700 :=
  ⟨claim_C7_amended.1 (ComputingNode 30 1) 5 25 50 100 (by norm_num [ComputingNode])
      (by norm_num) (by norm_num) (by norm_num) (by norm_num),
    claim_C7_amended.2 ⟨10⟩ 5 700 50 100 (by norm_num) (by norm_num)
      (by norm_num) (by norm_num) (by norm_num)⟩
